import Mathlib

/-!
Shallow embedding of the `xtab` crosstab program (src/main.rs) and a
verification of the specification's claims against it.

The program reads a CSV table, builds a header row and writes it to the
output file.  `main` performs the argument checks (input-file existence,
`.csv` extension of the output name, comma-splitting of the first
occurrence of each list flag, and the format match) before calling `xtab`.
-/

/-- An in-memory table as parsed from a CSV file: the header line's column
names and the data rows, each a list of string cells. -/
structure Table where
  header : List String
  rows : List (List String)
deriving DecidableEq, Repr

/-- Rust `args.row_headers[0].split(',').collect()` (main.rs lines 61-63):
split one flag-occurrence string on commas. -/
def splitCommas (s : String) : List String := s.splitOn ","

/-- Rust `str::ends_with` (main.rs line 56), modelled over the character
lists of the two strings. -/
def endsWith (s suffix : String) : Bool := suffix.data.isSuffixOf s.data

/-- Field quoting of the `csv` crate's writer (default `QuoteStyle::Necessary`):
a field is quoted, with inner quotes doubled, when it contains the delimiter,
a quote, or a record-terminator character. -/
def csvEscape (field : String) : String :=
  if field.contains ',' || field.contains '"' || field.contains '\n' || field.contains '\r' then
    "\"" ++ field.replace "\"" "\"\"" ++ "\""
  else field

/-- The bytes the `csv` crate's writer produces for one record:
escaped fields joined by commas, terminated by a newline. -/
def writeRecordBytes (fields : List String) : String :=
  String.intercalate "," (fields.map csvEscape) ++ "\n"

/-- The `header_row` vector built by `xtab` (main.rs lines 136-148): when
`format == 1`, the row-header names followed by, for each column-header
name `c` and each value-column name `v`, the string `c ++ "_" ++ v`;
otherwise the vector stays empty. -/
def headerRow (row_headers col_headers cell_values : List String) (format : Int) :
    List String :=
  if format = 1 then
    row_headers ++ col_headers.flatMap (fun c => cell_values.map fun v => c ++ "_" ++ v)
  else []

/-- Outcome of `fn xtab` (main.rs lines 97-155): either the CSV read failed
(the program exits with status 1 before the output file is created), or the
single header record was written to the output file. -/
inductive XtabResult where
  | readError : XtabResult
  | wrote (record : List String) : XtabResult
deriving DecidableEq, Repr

/-- Embedding of `fn xtab` (main.rs lines 97-155).  `parsed` is the result of
`read_csv` on the input file (`none` = read error).  On success the function
prints diagnostics (no output-file effect) and writes exactly one record,
the header row, to the output file; no data rows, cells or collision
warnings are produced anywhere in the function body. -/
def xtab (parsed : Option Table) (row_headers col_headers cell_values : List String)
    (format : Int) : XtabResult :=
  match parsed with
  | none => .readError
  | some _ => .wrote (headerRow row_headers col_headers cell_values format)

/-- The full list of records `xtab` writes to the output file, in order
(`none` when the read failed and the file was never created):
the source writes exactly the one header record. -/
def xtabRecords (parsed : Option Table) (rh ch cv : List String) (format : Int) :
    Option (List (List String)) :=
  match xtab parsed rh ch cv format with
  | .readError => none
  | .wrote r => some [r]

/-- The bytes `xtab` leaves in the output file (`none` when the read failed:
`csv::Writer::from_path` is only reached after a successful read). -/
def xtabBytes (parsed : Option Table) (rh ch cv : List String) (format : Int) :
    Option String :=
  match xtab parsed rh ch cv format with
  | .readError => none
  | .wrote r => some (writeRecordBytes r)

/-- Outcome of `fn main` (main.rs lines 34-88) after clap parsing. -/
inductive MainResult where
  | errMissingInfile (msg : String) : MainResult
  | errBadOutfile (msg : String) : MainResult
  | errBadFormat (msg : String) : MainResult
  | ran (r : XtabResult) : MainResult
deriving DecidableEq, Repr

/-- Embedding of `fn main` (main.rs lines 34-88) after clap has parsed the
arguments.  `infileExists` is whether `args.infile` exists on disk;
`rowHeaderArgs`, `colHeaderArgs`, `valueArgs` are clap's occurrence vectors
for the `-r`, `-c`, `-v` flags (indexing `[0]` panics on an empty vector,
modelled as `none`; clap's `required = true` makes that unreachable).
Checks run in source order: file existence, `.csv` extension, the split of
the first occurrence of each list flag, then the format match in which any
value other than `1` exits with status 1 before any table is read. -/
def mainRun (infileExists : Bool) (infileName outfileName : String)
    (rowHeaderArgs colHeaderArgs valueArgs : List String) (format : Nat)
    (parsedTable : Option Table) : Option MainResult :=
  if !infileExists then
    some (.errMissingInfile ("Error: The input file does not exist: " ++ infileName))
  else if !(endsWith outfileName ".csv") then
    some (.errBadOutfile ("Error: The output file must be a .csv file: " ++ outfileName))
  else
    match rowHeaderArgs, colHeaderArgs, valueArgs with
    | r0 :: _, c0 :: _, v0 :: _ =>
      if format = 1 then
        some (.ran (xtab parsedTable (splitCommas r0) (splitCommas c0) (splitCommas v0) 1))
      else
        some (.errBadFormat "Error: The format argument must be 1")
    | _, _, _ => none

/-- Process exit status of a `MainResult`: every pre-`xtab` error and the
CSV read error call `std::process::exit(1)`; a written header row ends the
process normally. -/
def exitCode : MainResult → Nat
  | .errMissingInfile _ => 1
  | .errBadOutfile _ => 1
  | .errBadFormat _ => 1
  | .ran .readError => 1
  | .ran (.wrote _) => 0

/-- Bytes left in the output file by a `MainResult`: the pre-`xtab` errors
and the read error occur before `csv::Writer::from_path` creates the file. -/
def outputBytes : MainResult → Option String
  | .errMissingInfile _ => none
  | .errBadOutfile _ => none
  | .errBadFormat _ => none
  | .ran .readError => none
  | .ran (.wrote r) => some (writeRecordBytes r)

/-- The scalar in `row` under the column named `name` of a table whose
header is `header` (empty when the column is absent). -/
def cellOf (header : List String) (row : List String) (name : String) : String :=
  match header.indexOf? name with
  | some i => row.getD i ""
  | none => ""

/-- Spec-side definition (Key Extractor, spec section 4.2), stated from the
spec's words for comparison with the code: the key tuple of one row under a
list of key-column names. -/
def keyTuple (header : List String) (keys : List String) (row : List String) :
    List String :=
  keys.map (cellOf header row)

/-- Spec-side definition (Key Extractor, spec section 4.2), stated from the
spec's words for comparison with the code: the ordered-unique list of
distinct key tuples occurring in the table, in first-seen order. -/
def distinctKeyTuples (t : Table) (keys : List String) : List (List String) :=
  t.rows.foldl (fun acc row =>
    let kt := keyTuple t.header keys row
    if kt ∈ acc then acc else acc ++ [kt]) []

/-- The spec's end-to-end example input (spec section 8). -/
def exampleTable : Table :=
  { header := ["region", "month", "sales"],
    rows := [["E", "Jan", "10"], ["E", "Feb", "20"], ["W", "Jan", "5"]] }

/-- The spec's collision example input (spec section 8): `exampleTable`
plus a fourth row `(E, Jan, 99)`. -/
def collisionTable : Table :=
  { header := ["region", "month", "sales"],
    rows := [["E", "Jan", "10"], ["E", "Feb", "20"], ["W", "Jan", "5"],
             ["E", "Jan", "99"]] }

/-- C1: on the spec's example (rowKeys = [region], colKeys = [month],
valueCols = [sales], format 1) the code emits the header
`["region", "month_sales"]` — one non-row-key column named from the
column-key column NAME — while the data holds two distinct column-key
tuples ([Jan] and [Feb]), so the claimed count (distinct tuples times value
columns = 2) and the claimed data-value-based names both fail. -/
theorem c1_code_bug :
    xtab (some exampleTable) ["region"] ["month"] ["sales"] 1
      = XtabResult.wrote ["region", "month_sales"] ∧
    (distinctKeyTuples exampleTable ["month"]).length = 2 ∧
    ¬((["month_sales"] : List String).length
        = (distinctKeyTuples exampleTable ["month"]).length
          * (["sales"] : List String).length) := by
  decide

/-- C2: on the spec's example the input holds two distinct row-key tuples
([E] and [W]), yet the full output the code writes is a single record (the
header row) — zero data rows, not one per distinct row-key tuple. -/
theorem c2_code_bug :
    (distinctKeyTuples exampleTable ["region"]).length = 2 ∧
    xtabRecords (some exampleTable) ["region"] ["month"] ["sales"] 1
      = some [["region", "month_sales"]] := by
  decide

/-- C3: on the spec's collision example, rows 0 and 3 share the same row-key
and column-key projections (a collision at address (E, Jan, sales)), yet the
full output the code writes is just the header record: no cell holds the
first value "10" and no collision entry is produced anywhere. -/
theorem c3_code_bug :
    keyTuple collisionTable.header ["region"] (collisionTable.rows.getD 0 [])
      = keyTuple collisionTable.header ["region"] (collisionTable.rows.getD 3 []) ∧
    keyTuple collisionTable.header ["month"] (collisionTable.rows.getD 0 [])
      = keyTuple collisionTable.header ["month"] (collisionTable.rows.getD 3 []) ∧
    xtabRecords (some collisionTable) ["region"] ["month"] ["sales"] 1
      = some [["region", "month_sales"]] := by
  decide

/-- C4: the requested row-header column "nonexistent" is absent from the
input header, yet the run does not fail: `xtab` still writes the header row
(the membership check in main.rs lines 125-128 is commented out, so no
missing-column error is ever raised). -/
theorem c4_code_bug :
    ("nonexistent" ∉ exampleTable.header) ∧
    xtab (some exampleTable) ["nonexistent"] ["month"] ["sales"] 1
      = XtabResult.wrote ["nonexistent", "month_sales"] := by
  decide

/-- C5 counterexample: format 2 lies in {1,2,3,4}, so by the claim it must
be accepted and proceed to the pivot, but `main` exits with the fatal
message "Error: The format argument must be 1". -/
theorem c5_counterexample :
    mainRun true "in.csv" "out.csv" ["region"] ["month"] ["sales"] 2 (some exampleTable)
      = some (MainResult.errBadFormat "Error: The format argument must be 1") := by
  decide

/-- C5 amended: with an existing input file, a `.csv` output name and
nonempty flag-occurrence vectors, `main` reports the fatal format error —
without consuming the table, so before any table is read — exactly when the
format value differs from 1; format 1 is accepted and proceeds to `xtab`. -/
theorem c5_amended (e : Bool) (fout : String) (fin r0 c0 v0 : String)
    (rs cs vs : List String) (fmt : Nat) (t : Option Table)
    (he : e = true) (ho : endsWith fout ".csv" = true) :
    (fmt ≠ 1 → ∀ t' : Option Table,
        mainRun e fin fout (r0 :: rs) (c0 :: cs) (v0 :: vs) fmt t'
          = some (MainResult.errBadFormat "Error: The format argument must be 1")) ∧
    (fmt = 1 →
        mainRun e fin fout (r0 :: rs) (c0 :: cs) (v0 :: vs) fmt t
          = some (MainResult.ran
              (xtab t (splitCommas r0) (splitCommas c0) (splitCommas v0) 1))) := by
  subst he
  constructor
  · intro hne t'
    simp [mainRun, ho, hne]
  · intro h1
    simp [mainRun, ho, h1]

/-- C5 amended, witness at format 5: the fatal format error is reported. -/
theorem c5_amended_witness :
    mainRun true "in.csv" "out.csv" ["region"] ["month"] ["sales"] 5 (some exampleTable)
      = some (MainResult.errBadFormat "Error: The format argument must be 1") :=
  (c5_amended true "out.csv" "in.csv" "region" "month" "sales" [] [] [] 5
      (some exampleTable) rfl (by decide)).1 (by decide) (some exampleTable)

/-- C6: the bytes written to the output file are a function of the parsed
table, the three column-name lists and the format alone: two runs on equal
inputs produce byte-identical output. -/
theorem c6_deterministic (t t' : Table) (rh rh' ch ch' cv cv' : List String)
    (f f' : Int) (h1 : t = t') (h2 : rh = rh') (h3 : ch = ch') (h4 : cv = cv')
    (h5 : f = f') :
    xtabBytes (some t) rh ch cv f = xtabBytes (some t') rh' ch' cv' f' := by
  subst h1 h2 h3 h4 h5
  rfl

/-- C6 witness: two runs on the spec's example input produce the same bytes. -/
theorem c6_deterministic_witness :
    xtabBytes (some exampleTable) ["region"] ["month"] ["sales"] 1
      = xtabBytes (some exampleTable) ["region"] ["month"] ["sales"] 1 :=
  c6_deterministic exampleTable exampleTable ["region"] ["region"] ["month"] ["month"]
    ["sales"] ["sales"] 1 1 rfl rfl rfl rfl rfl

/-- C7: when the input file does not exist or the output name does not end
in ".csv", `main` stops with exit status 1 and one of the two descriptive
error messages, before `xtab` is ever invoked, and the output file holds no
bytes (it is never created). -/
theorem c7_early_errors (e : Bool) (fin fout : String) (ra ca va : List String)
    (fmt : Nat) (t : Option Table)
    (h : e = false ∨ endsWith fout ".csv" = false) :
    ∃ res, mainRun e fin fout ra ca va fmt t = some res ∧
      exitCode res = 1 ∧ outputBytes res = none ∧
      (res = MainResult.errMissingInfile
          ("Error: The input file does not exist: " ++ fin) ∨
       res = MainResult.errBadOutfile
          ("Error: The output file must be a .csv file: " ++ fout)) := by
  cases e with
  | false =>
      refine ⟨MainResult.errMissingInfile
          ("Error: The input file does not exist: " ++ fin),
        by simp [mainRun], rfl, rfl, Or.inl rfl⟩
  | true =>
      rcases h with h | h
      · exact absurd h (by simp)
      · refine ⟨MainResult.errBadOutfile
            ("Error: The output file must be a .csv file: " ++ fout),
          by simp [mainRun, h], rfl, rfl, Or.inr rfl⟩

/-- C7 witness: a missing input file stops the run with status 1 and no
output bytes. -/
theorem c7_early_errors_witness :
    ∃ res, mainRun false "missing.csv" "out.csv" ["r"] ["c"] ["v"] 1 none = some res ∧
      exitCode res = 1 ∧ outputBytes res = none ∧
      (res = MainResult.errMissingInfile
          ("Error: The input file does not exist: " ++ "missing.csv") ∨
       res = MainResult.errBadOutfile
          ("Error: The output file must be a .csv file: " ++ "out.csv")) :=
  c7_early_errors false "missing.csv" "out.csv" ["r"] ["c"] ["v"] 1 none (Or.inl rfl)

/-- The cross of the column-header names with the value-column names has
exactly |col_headers| * |cell_values| entries. -/
theorem length_cross (ch cv : List String) :
    (ch.flatMap (fun c => cv.map fun v => c ++ "_" ++ v)).length
      = ch.length * cv.length := by
  induction ch with
  | nil => simp
  | cons c ch ih => simp [ih, Nat.succ_mul, Nat.add_comm]

/-- C8: on any successfully parsed table `xtab` terminates with a definite
result — a single written record whose field count is bounded by the sizes
of the argument lists — so the work is bounded by the input size. -/
theorem c8_bounded (t : Table) (rh ch cv : List String) (f : Int) :
    ∃ r, xtab (some t) rh ch cv f = XtabResult.wrote r ∧
      r.length ≤ rh.length + ch.length * cv.length := by
  refine ⟨headerRow rh ch cv f, rfl, ?_⟩
  unfold headerRow
  by_cases hf : f = 1
  · rw [if_pos hf, List.length_append, length_cross]
  · rw [if_neg hf]
    simp

/-- C9: the result of `main` is obtained by comma-splitting only the first
occurrence of each of the `-r`, `-c`, `-v` flags: any further occurrences
are ignored and never influence the output. -/
theorem c9_first_occurrence (e : Bool) (fin fout : String)
    (r0 c0 v0 : String) (rs rs' cs cs' vs vs' : List String) (fmt : Nat)
    (t : Option Table) :
    mainRun e fin fout (r0 :: rs) (c0 :: cs) (v0 :: vs) fmt t
      = mainRun e fin fout (r0 :: rs') (c0 :: cs') (v0 :: vs') fmt t := by
  rfl

/-- C10: for any two successfully parsed input tables and the same
remaining arguments, `xtab` writes byte-identical content to the output
file: the written bytes do not depend on the table's data at all. -/
theorem c10_input_independent (t1 t2 : Table) (rh ch cv : List String) (f : Int) :
    xtabBytes (some t1) rh ch cv f = xtabBytes (some t2) rh ch cv f := by
  rfl
